import Mathlib

/-!
Shallow embedding of the Sensirion SHTC1 I2C driver (`src/shtc1.c`,
`src/shtc1.h`) and proofs about its CRC-8 validator, fixed-point
conversions, measurement protocol, reset and presence probe.

Machine bytes (`uint8_t`) are modelled as `Nat` with explicit `% 2 ^ 8`
truncation where the C code truncates; C `int` results that can go negative
are modelled as `Int`.  The external ASF I2C transport and the delay
primitive are modelled by passing their outcomes (status codes, delivered
bytes) as explicit inputs, and the bus interaction each driver operation
performs is recorded as a trace of events.
-/

namespace SHTC1

/-! ### Constants from `src/shtc1.c` -/

def CMD_MEASURE_LPM_CS : List Nat := [0x64, 0x58]

def CMD_MEASURE_LPM : List Nat := [0x60, 0x9c]

def CMD_MEASURE_HPM_CS : List Nat := [0x7c, 0xa2]

def CMD_MEASURE_HPM : List Nat := [0x78, 0x66]

def CMD_SOFT_RESET : List Nat := [0x80, 0x5d]

def CMD_READ_ID_REG : List Nat := [0xef, 0xc8]

def COMMAND_SIZE : Nat := 2

def SHTC1_ADDRESS : Nat := 0x70

def ID_REG_CONTENT : Nat := 0x07

def ID_REG_MASK : Nat := 0x1f

def CRC_POLYNOMIAL : Nat := 0x31

def CRC_INIT : Nat := 0xff

/-- `STATUS_OK` of the external ASF `status_codes.h`: the C driver tests
success with `if (ret)`, so success is exactly the value `0`. -/
def STATUS_OK : Nat := 0

/-- The dedicated data-integrity error `STATUS_ERR_BAD_DATA` of the external
ASF `status_codes.h` (not part of this repository).  Only its being distinct
from `STATUS_OK` matters to the driver logic. -/
def STATUS_ERR_BAD_DATA : Nat := 0x13

/-! ### CRC-8 (`shtc1_check_crc`, src/shtc1.c lines 60-78)

The C inner loop body, on a `uint8_t` register: test the top bit, shift
left (the shift is computed in `int` width and truncated back to 8 bits on
assignment), XOR the polynomial when the top bit was set. -/

/-- One iteration of the inner bit loop of `shtc1_check_crc`. -/
def crcStep (crc : Nat) : Nat :=
  if crc &&& 0x80 ≠ 0 then ((crc <<< 1) ^^^ CRC_POLYNOMIAL) % 2 ^ 8
  else (crc <<< 1) % 2 ^ 8

/-- The inner `for (bit = 8; bit > 0; --bit)` loop of `shtc1_check_crc`. -/
def crcBitLoop : Nat → Nat → Nat
  | 0, crc => crc
  | bit + 1, crc => crcBitLoop bit (crcStep crc)

/-- One iteration of the outer byte loop of `shtc1_check_crc`:
`crc ^= data[current_byte]` followed by the 8-step bit loop. -/
def crcByte (crc b : Nat) : Nat := crcBitLoop 8 (crc ^^^ b)

/-- The checksum value `shtc1_check_crc` computes over the first
`data_length` bytes of `data`. -/
def crc8 (data : List Nat) (data_length : Nat) : Nat :=
  (data.take data_length).foldl crcByte CRC_INIT

/-- `shtc1_check_crc` (src/shtc1.c lines 60-78): computes the CRC-8 of the
first `data_length` bytes of `data` and compares with `checksum`. -/
def shtc1_check_crc (data : List Nat) (data_length : Nat) (checksum : Nat) : Bool :=
  crc8 data data_length == checksum

/-! ### Spec-side CRC-8 (a second definition, following §4.1 of the spec
word for word, for the refinement claim C1) -/

/-- Spec §4.1, one of the 8 iterations: if the top bit is set, shift left
and XOR with the polynomial, else shift left; register truncated to 8 bits
each step. -/
def specCrcStep (r : Nat) : Nat :=
  if r.testBit 7 then ((r * 2) ^^^ 0x31) % 2 ^ 8 else (r * 2) % 2 ^ 8

/-- Spec §4.1, per input byte: XOR into the 8-bit register, then 8
iterations of `specCrcStep`. -/
def specCrcRound (reg b : Nat) : Nat := specCrcStep^[8] (reg ^^^ b)

/-- Spec §4.1: bit-wise CRC-8, polynomial 0x31, initial register 0xFF,
MSB-first, no reflection, no final XOR; the final register value is the
checksum. -/
def specCrc8 (data : List Nat) : Nat := data.foldl specCrcRound 0xff

/-! ### Basic CRC lemmas -/

theorem crcStep_lt (crc : Nat) : crcStep crc < 2 ^ 8 := by
  unfold crcStep
  split <;> exact Nat.mod_lt _ (by norm_num)

theorem crcBitLoop_comm (n x : Nat) :
    crcBitLoop n (crcStep x) = crcStep (crcBitLoop n x) := by
  induction n generalizing x with
  | zero => rfl
  | succ n ih => simp only [crcBitLoop, ih]

theorem crcBitLoop8_lt (x : Nat) : crcBitLoop 8 x < 2 ^ 8 := by
  show crcBitLoop (7 + 1) x < 2 ^ 8
  simp only [crcBitLoop, crcBitLoop_comm]
  exact crcStep_lt _

theorem crcByte_lt (crc b : Nat) : crcByte crc b < 2 ^ 8 :=
  crcBitLoop8_lt _

theorem specCrcStep_eq_crcStep (r : Nat) : specCrcStep r = crcStep r := by
  unfold specCrcStep crcStep CRC_POLYNOMIAL
  have h1 : r <<< 1 = r * 2 := by rw [Nat.shiftLeft_eq, pow_one]
  cases h : r.testBit 7 with
  | false =>
    have hz : r &&& 0x80 = 0 := by
      have := Nat.and_two_pow r 7
      rw [h] at this
      norm_num at this
      exact this
    rw [if_neg (by simp [h]), if_neg (by simp [hz]), h1]
  | true =>
    have hz : r &&& 0x80 ≠ 0 := by
      have := Nat.and_two_pow r 7
      rw [h] at this
      norm_num at this
      omega
    rw [if_pos (by simp [h]), if_pos hz, h1]

theorem crcBitLoop_eq_iterate (n x : Nat) : crcBitLoop n x = crcStep^[n] x := by
  induction n generalizing x with
  | zero => rfl
  | succ n ih =>
    simp only [crcBitLoop, ih, Function.iterate_succ_apply]

theorem specCrcRound_eq_crcByte (reg b : Nat) : specCrcRound reg b = crcByte reg b := by
  unfold specCrcRound crcByte
  rw [crcBitLoop_eq_iterate]
  have : specCrcStep = crcStep := funext specCrcStep_eq_crcStep
  rw [this]

/-- C1: `shtc1_check_crc`, run over the whole byte sequence, returns `true`
iff the CRC-8 described by the spec (polynomial 0x31, initial register 0xFF,
MSB-first, no reflection, no final XOR, byte XORed into the register then 8
shift-and-conditionally-XOR iterations truncated to 8 bits) of the data
equals the expected checksum byte. -/
theorem check_crc_spec (data : List Nat) (checksum : Nat) :
    shtc1_check_crc data data.length checksum = true ↔ specCrc8 data = checksum := by
  unfold shtc1_check_crc crc8 specCrc8
  rw [List.take_length]
  have : specCrcRound = crcByte := funext fun r => funext fun b => specCrcRound_eq_crcByte r b
  rw [this]
  show (List.foldl crcByte CRC_INIT data == checksum) = true ↔ _
  rw [beq_iff_eq]
  exact Iff.rfl

/-! ### Single-bit error detection of the CRC (claim C9) -/

/-- Flip bit `j` of byte `b`. -/
def flipBit (b j : Nat) : Nat := b ^^^ (1 <<< j)

/-- A 2-byte payload `[b0, b1]` with bit `j` of byte `i` flipped. -/
def corruptPair (b0 b1 i j : Nat) : List Nat :=
  if i = 0 then [flipBit b0 j, b1] else [b0, flipBit b1 j]

theorem crc8_pair (x y : Nat) :
    crc8 [x, y] 2 = crcBitLoop 8 (crcBitLoop 8 (0xff ^^^ x) ^^^ y) := rfl

set_option maxRecDepth 10000 in
theorem crcBitLoop8_flip_ne : ∀ s : Fin 256, ∀ j : Fin 8,
    crcBitLoop 8 ((s : Nat) ^^^ (1 <<< (j : Nat))) ≠ crcBitLoop 8 (s : Nat) := by
  decide

set_option maxRecDepth 10000 in
theorem crcBitLoop8_nodup : ((List.range 256).map (crcBitLoop 8)).Nodup := by
  decide

theorem crcBitLoop8_inj {s t : Nat} (hs : s < 256) (ht : t < 256)
    (h : crcBitLoop 8 s = crcBitLoop 8 t) : s = t :=
  List.inj_on_of_nodup_map crcBitLoop8_nodup (List.mem_range.mpr hs)
    (List.mem_range.mpr ht) h

theorem xor_lt_256 {a b : Nat} (ha : a < 256) (hb : b < 256) : a ^^^ b < 256 := by
  have : a ^^^ b < 2 ^ 8 := Nat.xor_lt_two_pow (by norm_num [ha]) (by norm_num [hb])
  norm_num at this
  exact this

theorem crcBitLoop8_lt_256 (x : Nat) : crcBitLoop 8 x < 256 := by
  have := crcBitLoop8_lt x
  norm_num at this
  exact this

/-- C9: for every 2-byte payload with its correctly computed CRC byte,
flipping any single bit of either payload byte makes the CRC validation of
the corrupted payload against the original checksum return `false`. -/
theorem crc_single_bit_error_detected (b0 b1 i j : Nat)
    (hb0 : b0 < 256) (hb1 : b1 < 256) (hi : i < 2) (hj : j < 8) :
    shtc1_check_crc (corruptPair b0 b1 i j) 2 (crc8 [b0, b1] 2) = false := by
  unfold shtc1_check_crc corruptPair flipBit
  rw [beq_eq_false_iff_ne]
  have hinit : (0xff : Nat) ^^^ b0 < 256 := xor_lt_256 (by norm_num) hb0
  have hi2 : i = 0 ∨ i = 1 := by omega
  rcases hi2 with rfl | rfl
  · rw [if_pos rfl]
    rw [crc8_pair, crc8_pair]
    intro hcontra
    have hs1 : crcBitLoop 8 (0xff ^^^ b0) < 256 := crcBitLoop8_lt_256 _
    have hs1' : crcBitLoop 8 (0xff ^^^ (b0 ^^^ 1 <<< j)) < 256 := crcBitLoop8_lt_256 _
    have hxor : crcBitLoop 8 (0xff ^^^ (b0 ^^^ 1 <<< j)) ^^^ b1 =
        crcBitLoop 8 (0xff ^^^ b0) ^^^ b1 :=
      crcBitLoop8_inj (xor_lt_256 hs1' hb1) (xor_lt_256 hs1 hb1) hcontra
    have hinner : crcBitLoop 8 (0xff ^^^ (b0 ^^^ 1 <<< j)) = crcBitLoop 8 (0xff ^^^ b0) :=
      Nat.xor_left_inj.mp hxor
    rw [← Nat.xor_assoc] at hinner
    exact crcBitLoop8_flip_ne ⟨0xff ^^^ b0, hinit⟩ ⟨j, hj⟩ hinner
  · rw [if_neg (by omega : ¬ (1 : Nat) = 0)]
    rw [crc8_pair, crc8_pair]
    have hs1 : crcBitLoop 8 (0xff ^^^ b0) < 256 := crcBitLoop8_lt_256 _
    have harg : crcBitLoop 8 (0xff ^^^ b0) ^^^ (b1 ^^^ 1 <<< j) =
        (crcBitLoop 8 (0xff ^^^ b0) ^^^ b1) ^^^ 1 <<< j := by
      rw [Nat.xor_assoc]
    rw [harg]
    exact crcBitLoop8_flip_ne ⟨crcBitLoop 8 (0xff ^^^ b0) ^^^ b1,
      xor_lt_256 hs1 hb1⟩ ⟨j, hj⟩

/-- Witness for C9 at a concrete payload, byte position and bit position. -/
theorem crc_single_bit_error_detected_witness :
    shtc1_check_crc (corruptPair 0xbe 0xef 1 3) 2 (crc8 [0xbe, 0xef] 2) = false :=
  crc_single_bit_error_detected 0xbe 0xef 1 3 (by norm_num) (by norm_num)
    (by norm_num) (by norm_num)

/-! ### Bus-level model of the driver operations

The external ASF transport and delay primitive are collaborators: each
driver operation is modelled as a function of the status codes the transport
returns and of the bytes it delivers, and it records the bus calls it makes
as a trace of events, in order. -/

/-- One interaction with the external I2C transport or delay primitive. -/
inductive BusEvent
  | writeNoStop (address : Nat) (bytes : List Nat)
  | write (address : Nat) (bytes : List Nat)
  | read (address : Nat) (length : Nat)
  | delayMs (ms : Nat)
  deriving DecidableEq

/-- The 6-byte measurement frame the transport delivers into `data[6]`:
`[T_msb, T_lsb, T_crc, RH_msb, RH_lsb, RH_crc]`. -/
structure RawFrame where
  d0 : Nat
  d1 : Nat
  d2 : Nat
  d3 : Nat
  d4 : Nat
  d5 : Nat
  deriving DecidableEq

/-- The 3-byte identification frame the probe reads. -/
structure IdFrame where
  d0 : Nat
  d1 : Nat
  d2 : Nat
  deriving DecidableEq

/-- Outcome of a measurement-decoding driver call: the bus trace, the
returned status code, and the final contents of the caller-supplied
`*temp` / `*rh` locations. -/
structure DriverResult where
  trace : List BusEvent
  status : Nat
  temp : Int
  rh : Int
  deriving DecidableEq

/-- Outcome of `shtc1_probe`: the bus trace and the returned boolean. -/
structure ProbeResult where
  trace : List BusEvent
  present : Bool
  deriving DecidableEq

/-- `shtc1_read_async_result` (src/shtc1.c lines 80-111).  `readStatus` is
the status of `i2c_master_read_packet_wait` and `frame` the bytes it
delivered; `temp`, `rh` are the prior contents of the output locations. -/
def shtc1_read_async_result (readStatus : Nat) (frame : RawFrame)
    (temp rh : Int) : DriverResult :=
  let events := [BusEvent.read SHTC1_ADDRESS 6]
  if readStatus ≠ 0 then ⟨events, readStatus, temp, rh⟩
  else if !shtc1_check_crc [frame.d0, frame.d1] 2 frame.d2 ||
          !shtc1_check_crc [frame.d3, frame.d4] 2 frame.d5 then
    ⟨events, STATUS_ERR_BAD_DATA, temp, rh⟩
  else
    let st : Nat := (frame.d1 &&& 0xff) ||| (frame.d0 <<< 8)
    let srh : Nat := (frame.d4 &&& 0xff) ||| (frame.d3 <<< 8)
    ⟨events, STATUS_OK,
      (((21875 * st) >>> 13 : Nat) : Int) - 45000,
      (((12500 * srh) >>> 13 : Nat) : Int)⟩

/-- `shtc1_read_sync` (src/shtc1.c lines 113-131): write the command
(`COMMAND_SIZE` bytes, no stop condition), `delay_ms(50)`, then on write
success delegate to `shtc1_read_async_result`. -/
def shtc1_read_sync (command : List Nat) (writeStatus readStatus : Nat)
    (frame : RawFrame) (temp rh : Int) : DriverResult :=
  let events := [BusEvent.writeNoStop SHTC1_ADDRESS (command.take COMMAND_SIZE),
                 BusEvent.delayMs 50]
  if writeStatus ≠ 0 then ⟨events, writeStatus, temp, rh⟩
  else
    let r := shtc1_read_async_result readStatus frame temp rh
    ⟨events ++ r.trace, r.status, r.temp, r.rh⟩

/-- `shtc1_read_lpm_sync` (src/shtc1.c lines 133-137). -/
def shtc1_read_lpm_sync (writeStatus readStatus : Nat) (frame : RawFrame)
    (temp rh : Int) : DriverResult :=
  shtc1_read_sync CMD_MEASURE_LPM_CS writeStatus readStatus frame temp rh

/-- `shtc1_read_hpm_sync` (src/shtc1.c lines 139-143). -/
def shtc1_read_hpm_sync (writeStatus readStatus : Nat) (frame : RawFrame)
    (temp rh : Int) : DriverResult :=
  shtc1_read_sync CMD_MEASURE_HPM_CS writeStatus readStatus frame temp rh

/-- `shtc1_reset` (src/shtc1.c lines 169-179): one plain write (with stop
condition) of the soft-reset command; the transport status is returned. -/
def shtc1_reset (writeStatus : Nat) : List BusEvent × Nat :=
  ([BusEvent.write SHTC1_ADDRESS (CMD_SOFT_RESET.take COMMAND_SIZE)], writeStatus)

set_option linter.unusedVariables false in
/-- `shtc1_probe` (src/shtc1.c lines 181-207): write the read-ID command
without stop (status discarded), `delay_ms(50)`, read 3 bytes; fail on read
error or CRC mismatch, else compare the masked second byte with the
signature. -/
def shtc1_probe (writeStatus readStatus : Nat) (frame : IdFrame) : ProbeResult :=
  let events := [BusEvent.writeNoStop SHTC1_ADDRESS (CMD_READ_ID_REG.take COMMAND_SIZE),
                 BusEvent.delayMs 50, BusEvent.read SHTC1_ADDRESS 3]
  if readStatus ≠ 0 then ⟨events, false⟩
  else if !shtc1_check_crc [frame.d0, frame.d1] 2 frame.d2 then ⟨events, false⟩
  else ⟨events, (frame.d1 &&& ID_REG_MASK) == ID_REG_CONTENT⟩

/-! ### Decoding theorems -/

/-- C2: on a frame whose transport read succeeded, decoding checks the CRC
of the temperature pair (bytes 0-1 against byte 2) and of the humidity pair
(bytes 3-4 against byte 5) independently; it returns `STATUS_ERR_BAD_DATA`
with both output locations untouched iff at least one check fails, and the
frame is accepted (status `STATUS_OK`) iff both checks pass. -/
theorem read_async_result_crc_gate (f : RawFrame) (temp rh : Int) :
    (((shtc1_read_async_result 0 f temp rh).status = STATUS_ERR_BAD_DATA ∧
      (shtc1_read_async_result 0 f temp rh).temp = temp ∧
      (shtc1_read_async_result 0 f temp rh).rh = rh) ↔
     ¬ (shtc1_check_crc [f.d0, f.d1] 2 f.d2 = true ∧
        shtc1_check_crc [f.d3, f.d4] 2 f.d5 = true)) ∧
    ((shtc1_read_async_result 0 f temp rh).status = STATUS_OK ↔
     (shtc1_check_crc [f.d0, f.d1] 2 f.d2 = true ∧
      shtc1_check_crc [f.d3, f.d4] 2 f.d5 = true)) := by
  cases h1 : shtc1_check_crc [f.d0, f.d1] 2 f.d2 <;>
    cases h2 : shtc1_check_crc [f.d3, f.d4] 2 f.d5 <;>
      simp [shtc1_read_async_result, h1, h2, STATUS_ERR_BAD_DATA, STATUS_OK]

/-- C10: whenever decoding returns anything other than `STATUS_OK` — a
failed transport read or a failed CRC check — the caller-supplied output
locations keep their previous contents. -/
theorem read_async_result_outputs_unchanged_on_error (readStatus : Nat)
    (f : RawFrame) (temp rh : Int)
    (h : (shtc1_read_async_result readStatus f temp rh).status ≠ STATUS_OK) :
    (shtc1_read_async_result readStatus f temp rh).temp = temp ∧
    (shtc1_read_async_result readStatus f temp rh).rh = rh := by
  by_cases hr : readStatus ≠ 0
  · simp [shtc1_read_async_result, hr]
  · push_neg at hr
    subst hr
    cases h1 : shtc1_check_crc [f.d0, f.d1] 2 f.d2 <;>
      cases h2 : shtc1_check_crc [f.d3, f.d4] 2 f.d5
    · simp [shtc1_read_async_result, h1, h2]
    · simp [shtc1_read_async_result, h1, h2]
    · simp [shtc1_read_async_result, h1, h2]
    · exact absurd (by simp [shtc1_read_async_result, h1, h2, STATUS_OK]) h

/-- Witness for C10 at a failed transport read. -/
theorem read_async_result_outputs_unchanged_on_error_witness :
    (shtc1_read_async_result 1 ⟨0, 0, 0, 0, 0, 0⟩ 7 8).status ≠ STATUS_OK ∧
    ((shtc1_read_async_result 1 ⟨0, 0, 0, 0, 0, 0⟩ 7 8).temp = 7 ∧
     (shtc1_read_async_result 1 ⟨0, 0, 0, 0, 0, 0⟩ 7 8).rh = 8) :=
  ⟨by decide, read_async_result_outputs_unchanged_on_error 1 ⟨0, 0, 0, 0, 0, 0⟩ 7 8
    (by decide)⟩

/-- C6: given the same raw frame and the same transport read status, the
blocking sync read (after a successful command write) and the async-result
operation return the same status, temperature and humidity: the decode logic
is shared between the two protocol modes. -/
theorem sync_async_same_decode (command : List Nat) (readStatus : Nat)
    (f : RawFrame) (temp rh : Int) :
    (shtc1_read_sync command 0 readStatus f temp rh).status =
      (shtc1_read_async_result readStatus f temp rh).status ∧
    (shtc1_read_sync command 0 readStatus f temp rh).temp =
      (shtc1_read_async_result readStatus f temp rh).temp ∧
    (shtc1_read_sync command 0 readStatus f temp rh).rh =
      (shtc1_read_async_result readStatus f temp rh).rh := by
  simp [shtc1_read_sync]

set_option linter.unusedVariables false in
/-- Big-endian assembly as the C code writes it: for bytes below 256,
`(lo & 0xff) | (hi << 8)` is `256 * hi + lo`. -/
theorem assemble_be (hi lo : Nat) (hhi : hi < 256) (hlo : lo < 256) :
    (lo &&& 0xff) ||| (hi <<< 8) = 256 * hi + lo := by
  have h1 : lo &&& 0xff = lo := by
    have := Nat.and_pow_two_sub_one_eq_mod lo 8
    norm_num at this
    rw [this, Nat.mod_eq_of_lt hlo]
  have h2 : hi <<< 8 = 256 * hi := by rw [Nat.shiftLeft_eq]; norm_num; ring
  have h3 : 2 ^ 8 * hi + lo = 2 ^ 8 * hi ||| lo :=
    Nat.mul_add_lt_is_or (by norm_num [hlo]) hi
  norm_num at h3
  rw [h1, h2, Nat.lor_comm, ← h3]

/-- C3: on an accepted frame, the temperature output is
`(21875 * S) >> 13 - 45000` for the big-endian code `S` assembled from
bytes 0 and 1; the intermediate product fits in a 32-bit signed int and the
shift operates on a non-negative product (it is division by `2 ^ 13`). -/
theorem temp_conversion_formula (f : RawFrame) (temp rh : Int)
    (h0 : f.d0 < 256) (h1 : f.d1 < 256)
    (hc1 : shtc1_check_crc [f.d0, f.d1] 2 f.d2 = true)
    (hc2 : shtc1_check_crc [f.d3, f.d4] 2 f.d5 = true) :
    (shtc1_read_async_result 0 f temp rh).temp =
      (((21875 * (256 * f.d0 + f.d1)) >>> 13 : Nat) : Int) - 45000 ∧
    21875 * (256 * f.d0 + f.d1) < 2 ^ 31 ∧
    (21875 * (256 * f.d0 + f.d1)) >>> 13 =
      21875 * (256 * f.d0 + f.d1) / 2 ^ 13 := by
  refine ⟨?_, ?_, ?_⟩
  · simp only [shtc1_read_async_result, hc1, hc2, Bool.not_true, Bool.false_or,
      if_neg (by omega : ¬ (0 : Nat) ≠ 0)]
    simp [assemble_be f.d0 f.d1 h0 h1]
  · omega
  · exact Nat.shiftRight_eq_div_pow _ _

/-- Witness for C3 on a concrete CRC-valid frame. -/
theorem temp_conversion_formula_witness :
    (shtc1_read_async_result 0 ⟨0, 0, 0x81, 0, 0, 0x81⟩ 0 0).temp =
      (((21875 * (256 * 0 + 0)) >>> 13 : Nat) : Int) - 45000 ∧
    21875 * (256 * 0 + 0) < 2 ^ 31 ∧
    (21875 * (256 * 0 + 0)) >>> 13 = 21875 * (256 * 0 + 0) / 2 ^ 13 :=
  temp_conversion_formula ⟨0, 0, 0x81, 0, 0, 0x81⟩ 0 0 (by norm_num) (by norm_num)
    (by decide) (by decide)

/-- C4: on an accepted frame, the humidity output is `(12500 * S) >> 13`
for the big-endian code `S` assembled from bytes 3 and 4, it is never
negative, and the conversion yields exactly 50000 at `S = 0x8000`. -/
theorem rh_conversion_formula (f : RawFrame) (temp rh : Int)
    (h3 : f.d3 < 256) (h4 : f.d4 < 256)
    (hc1 : shtc1_check_crc [f.d0, f.d1] 2 f.d2 = true)
    (hc2 : shtc1_check_crc [f.d3, f.d4] 2 f.d5 = true) :
    (shtc1_read_async_result 0 f temp rh).rh =
      (((12500 * (256 * f.d3 + f.d4)) >>> 13 : Nat) : Int) ∧
    0 ≤ (shtc1_read_async_result 0 f temp rh).rh ∧
    (((12500 * (0x8000 : Nat)) >>> 13 : Nat) : Int) = 50000 := by
  have hval : (shtc1_read_async_result 0 f temp rh).rh =
      (((12500 * (256 * f.d3 + f.d4)) >>> 13 : Nat) : Int) := by
    simp only [shtc1_read_async_result, hc1, hc2, Bool.not_true, Bool.false_or,
      if_neg (by omega : ¬ (0 : Nat) ≠ 0)]
    simp [assemble_be f.d3 f.d4 h3 h4]
  refine ⟨hval, ?_, by decide⟩
  rw [hval]
  exact Int.ofNat_nonneg _

/-- Witness for C4 on a concrete CRC-valid frame carrying the half-scale
humidity code `0x8000`: the decoded humidity is exactly 50000 milli-%. -/
theorem rh_conversion_formula_witness :
    (shtc1_read_async_result 0 ⟨0, 0, 0x81, 0x80, 0x00, 0xa2⟩ 0 0).rh = 50000 := by
  have h := rh_conversion_formula ⟨0, 0, 0x81, 0x80, 0x00, 0xa2⟩ 0 0
    (by norm_num) (by norm_num) (by decide) (by decide)
  rw [h.1]
  decide

theorem read_async_result_trace (readStatus : Nat) (f : RawFrame) (temp rh : Int) :
    (shtc1_read_async_result readStatus f temp rh).trace =
      [BusEvent.read SHTC1_ADDRESS 6] := by
  unfold shtc1_read_async_result
  split
  · rfl
  · split <;> rfl

/-- C5: each blocking measurement (low-power and high-precision) writes its
2-byte clock-stretching command to address 0x70 without a stop condition,
waits the same fixed 50 ms delay in both modes, then — only if the write
succeeded — reads 6 bytes and decodes them; a failed write returns the
transport's code verbatim with the outputs untouched and no read issued. -/
theorem sync_read_protocol (ws rs : Nat) (f : RawFrame) (temp rh : Int) :
    (CMD_MEASURE_LPM_CS.length = COMMAND_SIZE ∧
     CMD_MEASURE_HPM_CS.length = COMMAND_SIZE) ∧
    ((shtc1_read_lpm_sync ws rs f temp rh).trace.take 2 =
       [BusEvent.writeNoStop SHTC1_ADDRESS CMD_MEASURE_LPM_CS, BusEvent.delayMs 50] ∧
     (shtc1_read_hpm_sync ws rs f temp rh).trace.take 2 =
       [BusEvent.writeNoStop SHTC1_ADDRESS CMD_MEASURE_HPM_CS, BusEvent.delayMs 50]) ∧
    (ws ≠ 0 →
      shtc1_read_lpm_sync ws rs f temp rh =
        ⟨[BusEvent.writeNoStop SHTC1_ADDRESS CMD_MEASURE_LPM_CS, BusEvent.delayMs 50],
         ws, temp, rh⟩ ∧
      shtc1_read_hpm_sync ws rs f temp rh =
        ⟨[BusEvent.writeNoStop SHTC1_ADDRESS CMD_MEASURE_HPM_CS, BusEvent.delayMs 50],
         ws, temp, rh⟩) ∧
    (ws = 0 →
      ((shtc1_read_lpm_sync ws rs f temp rh).trace =
         [BusEvent.writeNoStop SHTC1_ADDRESS CMD_MEASURE_LPM_CS, BusEvent.delayMs 50,
          BusEvent.read SHTC1_ADDRESS 6] ∧
       (shtc1_read_hpm_sync ws rs f temp rh).trace =
         [BusEvent.writeNoStop SHTC1_ADDRESS CMD_MEASURE_HPM_CS, BusEvent.delayMs 50,
          BusEvent.read SHTC1_ADDRESS 6]) ∧
      ((shtc1_read_lpm_sync ws rs f temp rh).status =
         (shtc1_read_async_result rs f temp rh).status ∧
       (shtc1_read_lpm_sync ws rs f temp rh).temp =
         (shtc1_read_async_result rs f temp rh).temp ∧
       (shtc1_read_lpm_sync ws rs f temp rh).rh =
         (shtc1_read_async_result rs f temp rh).rh) ∧
      ((shtc1_read_hpm_sync ws rs f temp rh).status =
         (shtc1_read_async_result rs f temp rh).status ∧
       (shtc1_read_hpm_sync ws rs f temp rh).temp =
         (shtc1_read_async_result rs f temp rh).temp ∧
       (shtc1_read_hpm_sync ws rs f temp rh).rh =
         (shtc1_read_async_result rs f temp rh).rh)) := by
  refine ⟨⟨rfl, rfl⟩, ?_⟩
  by_cases hws : ws = 0
  · subst hws
    refine ⟨⟨?_, ?_⟩, fun h => absurd rfl h, fun _ => ⟨⟨?_, ?_⟩, ?_, ?_⟩⟩ <;>
      simp [shtc1_read_lpm_sync, shtc1_read_hpm_sync, shtc1_read_sync,
        read_async_result_trace, CMD_MEASURE_LPM_CS, CMD_MEASURE_HPM_CS, COMMAND_SIZE]
  · refine ⟨⟨?_, ?_⟩, fun _ => ⟨?_, ?_⟩, fun h => absurd h hws⟩ <;>
      simp [shtc1_read_lpm_sync, shtc1_read_hpm_sync, shtc1_read_sync, hws,
        CMD_MEASURE_LPM_CS, CMD_MEASURE_HPM_CS, COMMAND_SIZE]

/-- Witness for C5: a failed write (code 7) is returned verbatim with no
read issued, and on a successful write the 6-byte read is traced. -/
theorem sync_read_protocol_witness :
    shtc1_read_lpm_sync 7 0 ⟨0, 0, 0, 0, 0, 0⟩ 1 2 =
      ⟨[BusEvent.writeNoStop SHTC1_ADDRESS CMD_MEASURE_LPM_CS, BusEvent.delayMs 50],
       7, 1, 2⟩ ∧
    (shtc1_read_hpm_sync 0 0 ⟨0, 0, 0, 0, 0, 0⟩ 1 2).trace =
      [BusEvent.writeNoStop SHTC1_ADDRESS CMD_MEASURE_HPM_CS, BusEvent.delayMs 50,
       BusEvent.read SHTC1_ADDRESS 6] :=
  ⟨((sync_read_protocol 7 0 ⟨0, 0, 0, 0, 0, 0⟩ 1 2).2.2.1 (by decide)).1,
   (((sync_read_protocol 0 0 ⟨0, 0, 0, 0, 0, 0⟩ 1 2).2.2.2 rfl).1).2⟩

/-- C7: the probe's result does not depend on the status of its command
write — the 3-byte read is always issued — and whenever the read step fails
the probe reports not-present. -/
theorem probe_ignores_write_status (ws ws' rs : Nat) (f : IdFrame) :
    shtc1_probe ws rs f = shtc1_probe ws' rs f ∧
    (shtc1_probe ws rs f).trace =
      [BusEvent.writeNoStop SHTC1_ADDRESS (CMD_READ_ID_REG.take COMMAND_SIZE),
       BusEvent.delayMs 50, BusEvent.read SHTC1_ADDRESS 3] ∧
    (rs ≠ 0 → (shtc1_probe ws rs f).present = false) := by
  refine ⟨rfl, ?_, fun h => ?_⟩
  · unfold shtc1_probe
    split
    · rfl
    · split <;> rfl
  · unfold shtc1_probe
    rw [if_pos h]

/-- Witness for C7: write failed with code 3 (versus a successful write)
while the read failed with code 5. -/
theorem probe_ignores_write_status_witness :
    shtc1_probe 3 5 ⟨0, 0, 0⟩ = shtc1_probe 0 5 ⟨0, 0, 0⟩ ∧
    (shtc1_probe 3 5 ⟨0, 0, 0⟩).present = false :=
  ⟨(probe_ignores_write_status 3 0 5 ⟨0, 0, 0⟩).1,
   (probe_ignores_write_status 3 0 5 ⟨0, 0, 0⟩).2.2 (by decide)⟩

/-- C8: when the identification read succeeded and its CRC is valid, the
probe reports present exactly when the low 5 bits of the second byte equal
the signature 0x07. -/
theorem probe_signature_check (ws : Nat) (f : IdFrame)
    (hcrc : shtc1_check_crc [f.d0, f.d1] 2 f.d2 = true) :
    (shtc1_probe ws 0 f).present = true ↔ f.d1 &&& ID_REG_MASK = ID_REG_CONTENT := by
  unfold shtc1_probe
  rw [if_neg (by omega : ¬ (0 : Nat) ≠ 0), hcrc]
  simp

/-- Witness for C8: a CRC-valid identification frame whose low 5 bits are 0,
not the signature 0x07 — the probe reports not-present. -/
theorem probe_signature_check_witness :
    shtc1_check_crc [0, 0] 2 0x81 = true ∧
    ((shtc1_probe 0 0 ⟨0, 0, 0x81⟩).present = true ↔
      (0 : Nat) &&& ID_REG_MASK = ID_REG_CONTENT) ∧
    (shtc1_probe 0 0 ⟨0, 0, 0x81⟩).present = false := by
  have h := probe_signature_check 0 ⟨0, 0, 0x81⟩ (by decide)
  refine ⟨by decide, h, ?_⟩
  rw [Bool.eq_false_iff]
  intro hc
  have := h.mp hc
  norm_num [ID_REG_MASK, ID_REG_CONTENT] at this

end SHTC1
